import Mathlib

/-!
Verification of the `MolecularSieve` unit operation
(`src/biosteam/units/molecular_sieve.py`) against its natural-language
specification.

Flows, pressures, temperatures and duties are embedded as exact
rationals (`ℚ`); the spec's "within floating tolerance" becomes exact
equality.  A `MStream` carries its per-component molar flow vector,
indexed against a fixed chemical registry, plus temperature and
pressure.  The cost correlation uses real arithmetic (`ℝ`) because the
scaling exponent 0.6 is not an integer.

Code present under `src/` (`MolecularSieve.__init__`, `_run`'s pressure
logic, `_design`) is translated directly.  Collaborator code that the
repository slice does not include (`Splitter`, the `cost` decorator
engine, `add_heat_utility`, stream accessors) is modelled from the
specification; each such definition says so in its doc comment.
-/

/-- Error taxonomy of the spec (§7): configuration errors are raised
eagerly when a unit is configured, validation errors at run/design
time. -/
inductive SimError where
  | configurationError : SimError
  | validationError : SimError
deriving Repr, DecidableEq

/-- Modelled from the spec: the external material-stream/property engine's data
carrier.  `mol` is the per-component molar flow vector, aligned with the
simulation's chemical registry; `T` and `P` are the scalar temperature
and pressure. -/
structure MStream where
  mol : List ℚ
  T : ℚ
  P : ℚ
deriving Repr, DecidableEq

/-- Modelled from the spec: total molar flow of a stream (sum of the
per-component flows). -/
def F_mol (s : MStream) : ℚ := s.mol.sum

/-- Modelled from the spec: total mass flow of a stream, obtained from
the molar flow vector via the per-component molecular weights `MW`
supplied by the external property engine. -/
def F_mass (MW : List ℚ) (s : MStream) : ℚ :=
  (List.zipWith (fun w m => w * m) MW s.mol).sum

/-- Modelled from the spec: conversion of a `SplitSpec` mapping
(component name ↦ fraction routed to outlet 0) into the per-component
fraction vector aligned with the chemical registry.  Raises
`ConfigurationError` if any fraction lies outside `[0,1]` or if the
mapping references a component absent from the registry; unspecified
components get fraction 0. -/
def mkSplit (registry : List String) (spec : List (String × ℚ)) :
    Except SimError (List ℚ) :=
  if spec.any (fun p => decide (p.2 < 0) || decide (1 < p.2)) then
    .error .configurationError
  else if spec.any (fun p => !(registry.contains p.1)) then
    .error .configurationError
  else
    .ok (registry.map (fun c =>
      match spec.find? (fun p => p.1 == c) with
      | some p => p.2
      | none => 0))

/-- Modelled from the spec: `Splitter._run` (the base-class mass
balance, not included under `src/`).  For each component, outlet 0
receives `inlet_flow * fraction` and outlet 1 receives
`inlet_flow * (1 - fraction)`; only the outlet flow vectors are
recomputed — temperature, pressure and phase of the outlet streams are
not touched by the splitter itself.  Fails with `ValidationError` when
the inlet has zero total flow (undefined split). -/
def splitterRun (inlet out0 out1 : MStream) (split : List ℚ) :
    Except SimError (MStream × MStream) :=
  if F_mol inlet = 0 then .error .validationError
  else
    .ok ({ out0 with mol := List.zipWith (fun m s => m * s) inlet.mol split },
         { out1 with mol := List.zipWith (fun m s => m * (1 - s)) inlet.mol split })

/-- State of a `MolecularSieve` unit: the stored split-fraction vector,
the stored pressure override, the approximate-duty flag, the bound
inlet and outlet streams, the `DesignResults` mapping and the recorded
`HeatUtility` entries (duty, temperature). -/
structure MolecularSieve where
  split : List ℚ
  P : Option ℚ
  approx_duty : Bool
  ins : MStream
  outs : MStream × MStream
  design_results : List (String × ℚ)
  heat_utilities : List (ℚ × ℚ)
deriving Repr, DecidableEq

namespace MolecularSieve

/-- `MolecularSieve.__init__` from the source: binds the streams and the
split, stores `approx_duty` — and stores `self.P = None`, ignoring the
`P` argument of the construction interface. -/
def init (ins : MStream) (outs : MStream × MStream) (split : List ℚ)
    (P : Option ℚ) (approx_duty : Bool) : MolecularSieve :=
  { split := split
    P := none
    approx_duty := approx_duty
    ins := ins
    outs := outs
    design_results := []
    heat_utilities := [] }

/-- `MolecularSieve._run` from the source: run the splitter, then set
both outlets' pressure to the stored override `self.P`, falling back to
the inlet pressure when the override is `None`. -/
def run (u : MolecularSieve) : Except SimError MolecularSieve :=
  match splitterRun u.ins u.outs.1 u.outs.2 u.split with
  | .error e => .error e
  | .ok (o0, o1) =>
    let P := u.P.getD u.ins.P
    .ok { u with outs := ({ o0 with P := P }, { o1 with P := P }) }

/-- Insert-or-replace on the `DesignResults` association list: the
semantics of the Python dict assignment `design_results[key] = value`. -/
def setD : List (String × ℚ) → String → ℚ → List (String × ℚ)
  | [], k, v => [(k, v)]
  | (k', v') :: rest, k, v =>
    if k' == k then (k, v) :: rest else (k', v') :: setD rest k v

/-- Modelled from the spec: `Unit.add_heat_utility` (not included under
`src/`) records one `(duty, temperature)` utility entry, in order. -/
def addHeatUtility (u : MolecularSieve) (duty T : ℚ) : MolecularSieve :=
  { u with heat_utilities := u.heat_utilities ++ [(duty, T)] }

/-- `MolecularSieve._design` from the source: store the reject stream's
(`outs[1]`) mass flow under `"Flow rate"`; when `approx_duty` is set,
add a heating duty `1429.65 * flow` and a cooling duty `-55.51 * flow`,
both at the product stream's (`outs[0]`) temperature. -/
def design (u : MolecularSieve) (MW : List ℚ) : MolecularSieve :=
  let flow := F_mass MW u.outs.2
  let u' := { u with design_results := setD u.design_results "Flow rate" flow }
  if u'.approx_duty then
    addHeatUtility (addHeatUtility u' (1429.65 * flow) u'.outs.1.T)
      (-55.51 * flow) u'.outs.1.T
  else u'

/-- Modelled from the spec: one simulation pass as driven by the
external flowsheet scheduler — `run()` then `design()`, with the
framework clearing the prior pass's `HeatUtility` entries so that
re-simulation fully overwrites rather than appends. -/
def simulatePass (u : MolecularSieve) (MW : List ℚ) :
    Except SimError MolecularSieve :=
  match u.run with
  | .error e => .error e
  | .ok v => .ok (design { v with heat_utilities := [] } MW)

end MolecularSieve

/-- Modelled from the spec: the cost correlation engine's purchase-cost
formula, instantiated with the `MolecularSieve` correlation constants
from the `cost` decorator in the source (reference cost 2601000 at
reference size 22687, exponent 0.6, bare-module factor 1.8, reference
cost index 521.9):
`reference_cost * (x / reference_size) ** n * (currentIndex / 521.9) * BM`. -/
noncomputable def price (currentIndex x : ℝ) : ℝ :=
  2601000 * (x / 22687) ^ (0.6 : ℝ) * (currentIndex / 521.9) * 1.8

/-! ## Helper lemmas -/

theorem getD_zipWith (f : ℚ → ℚ → ℚ) (as bs : List ℚ) (i : ℕ)
    (h1 : i < as.length) (h2 : i < bs.length) :
    (List.zipWith f as bs).getD i 0 = f (as.getD i 0) (bs.getD i 0) := by
  induction as generalizing bs i with
  | nil => simp at h1
  | cons a as ih =>
    cases bs with
    | nil => simp at h2
    | cons b bs =>
      cases i with
      | zero => simp
      | succ n =>
        simp only [List.zipWith_cons_cons, List.getD_cons_succ]
        exact ih bs n (by simpa using h1) (by simpa using h2)

theorem lookup_setD (d : List (String × ℚ)) (k : String) (v : ℚ) :
    List.lookup k (MolecularSieve.setD d k v) = some v := by
  induction d with
  | nil => simp [MolecularSieve.setD, List.lookup]
  | cons p rest ih =>
    obtain ⟨k', v'⟩ := p
    by_cases h : k' == k
    · simp [MolecularSieve.setD, h, List.lookup]
    · have hne : ¬ k' = k := by simpa using h
      have hk : (k == k') = false := by
        rw [beq_eq_false_iff_ne]
        exact fun hkk => hne hkk.symm
      simp [MolecularSieve.setD, h, List.lookup, hk, ih]

theorem setD_setD (d : List (String × ℚ)) (k : String) (v : ℚ) :
    MolecularSieve.setD (MolecularSieve.setD d k v) k v
      = MolecularSieve.setD d k v := by
  induction d with
  | nil => simp [MolecularSieve.setD]
  | cons p rest ih =>
    obtain ⟨k', v'⟩ := p
    by_cases h : k' == k
    · simp [MolecularSieve.setD, h]
    · simp [MolecularSieve.setD, h, ih]

/-! ## Claims -/

/-- C3: after a run, `design()` stores into `DesignResults` under the key
`"Flow rate"` exactly the mass flow rate of outlet 1 (the reject /
water-rich stream), not of outlet 0 (the product stream). -/
theorem C3_design_flow_rate_is_reject_mass (u : MolecularSieve) (MW : List ℚ) :
    List.lookup "Flow rate" (u.design MW).design_results
      = some (F_mass MW u.outs.2) := by
  unfold MolecularSieve.design
  by_cases h : u.approx_duty <;>
    simp [h, MolecularSieve.addHeatUtility, lookup_setD]

/-- C4: with the approximate-duty flag enabled, `design()` adds exactly two
`HeatUtility` entries, both at the product stream's (outlet 0) temperature:
a heating duty `1429.65 * reject_mass_flow` and a cooling duty
`-55.51 * reject_mass_flow`; with the flag disabled it adds none. -/
theorem C4_heat_utility_entries (u : MolecularSieve) (MW : List ℚ) :
    (u.design MW).heat_utilities
      = u.heat_utilities ++
        (if u.approx_duty then
           [(1429.65 * F_mass MW u.outs.2, u.outs.1.T),
            ((-55.51) * F_mass MW u.outs.2, u.outs.1.T)]
         else []) := by
  unfold MolecularSieve.design
  by_cases h : u.approx_duty <;> simp [h, MolecularSieve.addHeatUtility]

/-- C10: `design()` writes the `"Flow rate"` design metric unconditionally,
whatever the approximate-duty flag; and with the flag disabled, `design()`
changes no state other than `DesignResults["Flow rate"]`. -/
theorem C10_design_frame (u : MolecularSieve) (MW : List ℚ) :
    List.lookup "Flow rate" (u.design MW).design_results
        = some (F_mass MW u.outs.2) ∧
    (u.approx_duty = false →
      u.design MW = { u with design_results := (MolecularSieve.setD
        u.design_results "Flow rate" (F_mass MW u.outs.2)) }) := by
  constructor
  · unfold MolecularSieve.design
    by_cases h : u.approx_duty <;>
      simp [h, MolecularSieve.addHeatUtility, lookup_setD]
  · intro h
    unfold MolecularSieve.design
    simp [h]

/-- C5: after `run()`, if the unit's stored override pressure is unset both
outlets' pressure equals the inlet pressure; if it is set, both outlets'
pressure equals the stored override value regardless of inlet pressure. -/
theorem C5_pressure_propagation (u v : MolecularSieve)
    (hrun : u.run = .ok v) :
    (u.P = none → v.outs.1.P = u.ins.P ∧ v.outs.2.P = u.ins.P) ∧
    (∀ p, u.P = some p → v.outs.1.P = p ∧ v.outs.2.P = p) := by
  unfold MolecularSieve.run at hrun
  cases hs : splitterRun u.ins u.outs.1 u.outs.2 u.split with
  | error e => rw [hs] at hrun; cases hrun
  | ok pr =>
    obtain ⟨o0, o1⟩ := pr
    rw [hs] at hrun
    simp only [Except.ok.injEq] at hrun
    subst hrun
    constructor
    · intro hp; simp [hp]
    · intro p hp; simp [hp]

/-- The state `run` produces on a non-degenerate inlet: outlet flow vectors
recomputed from the inlet and the stored split, outlet pressures set from
the stored override with the inlet pressure as fallback. -/
def runResult (u : MolecularSieve) : MolecularSieve :=
  { u with outs :=
    ({ u.outs.1 with
        mol := (List.zipWith (fun m s => m * s) u.ins.mol u.split),
        P := (u.P.getD u.ins.P) },
     { u.outs.2 with
        mol := (List.zipWith (fun m s => m * (1 - s)) u.ins.mol u.split),
        P := (u.P.getD u.ins.P) }) }

theorem run_zero (u : MolecularSieve) (h : F_mol u.ins = 0) :
    u.run = .error .validationError := by
  unfold MolecularSieve.run splitterRun
  simp [h]

theorem run_ok (u : MolecularSieve) (hz : ¬ F_mol u.ins = 0) :
    u.run = .ok (runResult u) := by
  unfold MolecularSieve.run splitterRun runResult
  rw [if_neg hz]

/-- C6: for every inlet stream with zero total flow, `run()` fails with a
`ValidationError` (undefined split), and the error propagates through the
scheduler's simulation pass. -/
theorem C6_zero_flow_validates (u : MolecularSieve) (MW : List ℚ)
    (h : F_mol u.ins = 0) :
    u.run = .error .validationError ∧
    u.simulatePass MW = .error .validationError := by
  refine ⟨run_zero u h, ?_⟩
  unfold MolecularSieve.simulatePass
  rw [run_zero u h]

/-- C1: for every inlet and every valid split spec, `run()` conserves mass
component-wise: outlet 0 receives `inlet_flow * fraction`, outlet 1
receives `inlet_flow * (1 - fraction)`, and their sum equals the inlet
flow, for every component index. -/
theorem C1_mass_conservation (u v : MolecularSieve) (i : ℕ)
    (hvalid : ∀ s ∈ u.split, 0 ≤ s ∧ s ≤ 1)
    (hlen : u.split.length = u.ins.mol.length)
    (hrun : u.run = .ok v) (hi : i < u.ins.mol.length) :
    v.outs.1.mol.getD i 0 = u.ins.mol.getD i 0 * u.split.getD i 0 ∧
    v.outs.2.mol.getD i 0 = u.ins.mol.getD i 0 * (1 - u.split.getD i 0) ∧
    v.outs.1.mol.getD i 0 + v.outs.2.mol.getD i 0 = u.ins.mol.getD i 0 := by
  by_cases hz : F_mol u.ins = 0
  · rw [run_zero u hz] at hrun; cases hrun
  · rw [run_ok u hz] at hrun
    simp only [Except.ok.injEq] at hrun
    subst hrun
    have h2 : i < u.split.length := hlen ▸ hi
    have e1 := getD_zipWith (fun m s => m * s) u.ins.mol u.split i hi h2
    have e2 := getD_zipWith (fun m s => m * (1 - s)) u.ins.mol u.split i hi h2
    refine ⟨e1, e2, ?_⟩
    show (List.zipWith (fun m s => m * s) u.ins.mol u.split).getD i 0
        + (List.zipWith (fun m s => m * (1 - s)) u.ins.mol u.split).getD i 0
        = u.ins.mol.getD i 0
    rw [e1, e2]
    ring

/-! ## Concrete states used by witnesses -/

/-- Concrete inlet: 4 kmol/hr of the first registry component and 2 kmol/hr
of the second, at 300 K and 100 kPa. -/
def wFeed : MStream := { mol := [4, 2], T := 300, P := 100 }

/-- Placeholder outlet stream as bound at construction, before any run. -/
def wOut : MStream := { mol := [], T := 300, P := 1 }

/-- Concrete unit with no stored pressure override and split `[1/2, 1]`. -/
def wUnit : MolecularSieve :=
  MolecularSieve.init wFeed (wOut, wOut) [1/2, 1] none true

/-- The state `wUnit.run` produces. -/
def wUnitRun : MolecularSieve :=
  { wUnit with outs := ({ mol := [2, 2], T := 300, P := 100 },
                        { mol := [2, 0], T := 300, P := 100 }) }

/-- `wUnit` with the stored pressure override set to 7. -/
def sUnit : MolecularSieve := { wUnit with P := some 7 }

/-- The state `sUnit.run` produces. -/
def sUnitRun : MolecularSieve :=
  { sUnit with outs := ({ mol := [2, 2], T := 300, P := 7 },
                        { mol := [2, 0], T := 300, P := 7 }) }

theorem C1_mass_conservation_witness :
    (∀ s ∈ wUnit.split, 0 ≤ s ∧ s ≤ 1) ∧
    wUnit.split.length = wUnit.ins.mol.length ∧
    wUnit.run = .ok wUnitRun ∧
    0 < wUnit.ins.mol.length ∧
    (wUnitRun.outs.1.mol.getD 0 0
        = wUnit.ins.mol.getD 0 0 * wUnit.split.getD 0 0 ∧
     wUnitRun.outs.2.mol.getD 0 0
        = wUnit.ins.mol.getD 0 0 * (1 - wUnit.split.getD 0 0) ∧
     wUnitRun.outs.1.mol.getD 0 0 + wUnitRun.outs.2.mol.getD 0 0
        = wUnit.ins.mol.getD 0 0) :=
  ⟨by norm_num [wUnit, MolecularSieve.init],
   by norm_num [wUnit, MolecularSieve.init, wFeed],
   by norm_num [MolecularSieve.run, splitterRun, wUnit, wUnitRun, wFeed, wOut,
     MolecularSieve.init, F_mol],
   by norm_num [wUnit, MolecularSieve.init, wFeed],
   C1_mass_conservation wUnit wUnitRun 0
     (by norm_num [wUnit, MolecularSieve.init])
     (by norm_num [wUnit, MolecularSieve.init, wFeed])
     (by norm_num [MolecularSieve.run, splitterRun, wUnit, wUnitRun, wFeed, wOut,
       MolecularSieve.init, F_mol])
     (by norm_num [wUnit, MolecularSieve.init, wFeed])⟩

theorem C5_pressure_propagation_witness :
    (wUnit.P = none ∧ wUnit.run = .ok wUnitRun ∧
     wUnitRun.outs.1.P = wUnit.ins.P ∧ wUnitRun.outs.2.P = wUnit.ins.P) ∧
    (sUnit.P = some 7 ∧ sUnit.run = .ok sUnitRun ∧
     sUnitRun.outs.1.P = 7 ∧ sUnitRun.outs.2.P = 7) :=
  ⟨⟨rfl,
    by norm_num [MolecularSieve.run, splitterRun, wUnit, wUnitRun, wFeed, wOut,
      MolecularSieve.init, F_mol],
    (C5_pressure_propagation wUnit wUnitRun
      (by norm_num [MolecularSieve.run, splitterRun, wUnit, wUnitRun, wFeed,
        wOut, MolecularSieve.init, F_mol])).1 rfl⟩,
   ⟨rfl,
    by norm_num [MolecularSieve.run, splitterRun, sUnit, sUnitRun, wUnit,
      wUnitRun, wFeed, wOut, MolecularSieve.init, F_mol],
    (C5_pressure_propagation sUnit sUnitRun
      (by norm_num [MolecularSieve.run, splitterRun, sUnit, sUnitRun, wUnit,
        wUnitRun, wFeed, wOut, MolecularSieve.init, F_mol])).2 7 rfl⟩⟩

/-- Unit whose inlet carries zero total flow. -/
def zUnit : MolecularSieve :=
  MolecularSieve.init { mol := [0, 0], T := 300, P := 100 } (wOut, wOut)
    [1/2, 1] none true

theorem C6_zero_flow_validates_witness :
    F_mol zUnit.ins = 0 ∧
    (zUnit.run = .error .validationError ∧
     zUnit.simulatePass [18, 46] = .error .validationError) :=
  ⟨by norm_num [zUnit, MolecularSieve.init, F_mol],
   C6_zero_flow_validates zUnit [18, 46]
     (by norm_num [zUnit, MolecularSieve.init, F_mol])⟩

/-- Inlet at pressure 101325 used to exercise the discarded constructor
override. -/
def pFeed : MStream := { mol := [1, 2], T := 300, P := 101325 }

/-- Unit built through the construction interface with an explicit override
pressure of 202650. -/
def pUnit : MolecularSieve :=
  MolecularSieve.init pFeed (wOut, wOut) [1/2, 1/2] (some 202650) true

/-- The state `pUnit.run` produces. -/
def pUnitRun : MolecularSieve :=
  { pUnit with outs := ({ mol := [1/2, 1], T := 300, P := 101325 },
                        { mol := [1/2, 1], T := 300, P := 101325 }) }

/-- C2 (code defect): `__init__` executes `self.P = None`, discarding the
`P` argument of the construction interface, so a unit constructed with the
explicit override 202650 stores no override, and `run()` gives both outlets
the inlet pressure 101325 instead of the requested 202650. -/
theorem C2_pressure_override_discarded :
    pUnit.P = none ∧
    pUnit.run = .ok pUnitRun ∧
    pUnitRun.outs.1.P = 101325 ∧ pUnitRun.outs.2.P = 101325 ∧
    (101325 : ℚ) ≠ 202650 := by
  refine ⟨rfl, ?_, rfl, rfl, by norm_num⟩
  norm_num [MolecularSieve.run, splitterRun, pUnit, pUnitRun, pFeed, wOut,
    MolecularSieve.init, F_mol]

/-- `wUnit` with the approximate-duty flag disabled. -/
def dUnit : MolecularSieve := { wUnit with approx_duty := false }

theorem C10_design_frame_witness :
    List.lookup "Flow rate" (dUnit.design [18, 46]).design_results
        = some (F_mass [18, 46] dUnit.outs.2) ∧
    dUnit.approx_duty = false ∧
    dUnit.design [18, 46] = { dUnit with design_results := (MolecularSieve.setD
      dUnit.design_results "Flow rate" (F_mass [18, 46] dUnit.outs.2)) } :=
  ⟨(C10_design_frame dUnit [18, 46]).1, rfl,
   (C10_design_frame dUnit [18, 46]).2 rfl⟩

/-- C7: every split spec holding a fraction outside `[0,1]`, or referencing
a component absent from the simulation's component registry, is rejected
with a `ConfigurationError` at configuration time. -/
theorem C7_split_spec_validates (registry : List String)
    (spec : List (String × ℚ))
    (h : (∃ p ∈ spec, p.2 < 0 ∨ 1 < p.2) ∨ (∃ p ∈ spec, ¬ p.1 ∈ registry)) :
    mkSplit registry spec = .error .configurationError := by
  unfold mkSplit
  by_cases h1 : spec.any (fun p => decide (p.2 < 0) || decide (1 < p.2)) = true
  · rw [if_pos h1]
  · rw [if_neg h1]
    have h2 : spec.any (fun p => !(registry.contains p.1)) = true := by
      rw [List.any_eq_true]
      rcases h with h | h
      · exfalso
        apply h1
        rw [List.any_eq_true]
        obtain ⟨p, hp, hlt⟩ := h
        refine ⟨p, hp, ?_⟩
        rcases hlt with hlt | hlt <;> simp [hlt]
      · obtain ⟨p, hp, hmem⟩ := h
        refine ⟨p, hp, ?_⟩
        simpa using hmem
    rw [if_pos h2]

theorem C7_split_spec_validates_witness :
    ((∃ p ∈ [("Water", (2 : ℚ))], p.2 < 0 ∨ 1 < p.2) ∨
     (∃ p ∈ [("Water", (2 : ℚ))], ¬ p.1 ∈ ["Water", "Ethanol"])) ∧
    mkSplit ["Water", "Ethanol"] [("Water", 2)]
      = .error .configurationError :=
  ⟨Or.inl ⟨("Water", 2), by norm_num⟩,
   C7_split_spec_validates ["Water", "Ethanol"] [("Water", 2)]
     (Or.inl ⟨("Water", 2), by norm_num⟩)⟩

/-- C9: for the unit's cost correlation (exponent `n = 0.6 > 0`) and a fixed
cost index, purchase cost is non-decreasing in the design-metric value. -/
theorem C9_cost_monotone (currentIndex a b : ℝ)
    (hCE : 0 ≤ currentIndex) (ha : 0 ≤ a) (hab : a ≤ b) :
    price currentIndex a ≤ price currentIndex b := by
  unfold price
  have hr : (a / 22687 : ℝ) ^ (0.6 : ℝ) ≤ (b / 22687) ^ (0.6 : ℝ) := by
    apply Real.rpow_le_rpow (by positivity) _ (by norm_num)
    apply div_le_div_of_nonneg_right hab (by norm_num)
  have hc : (0 : ℝ) ≤ currentIndex / 521.9 := by positivity
  apply mul_le_mul_of_nonneg_right _ (by norm_num : (0:ℝ) ≤ 1.8)
  apply mul_le_mul_of_nonneg_right _ hc
  exact mul_le_mul_of_nonneg_left hr (by norm_num)

theorem C9_cost_monotone_witness :
    (0 : ℝ) ≤ 521.9 ∧ (0 : ℝ) ≤ 0 ∧ (0 : ℝ) ≤ 22687 ∧
    price 521.9 0 ≤ price 521.9 22687 :=
  ⟨by norm_num, le_refl 0, by norm_num,
   C9_cost_monotone 521.9 0 22687 (by norm_num) (le_refl 0) (by norm_num)⟩

theorem design_ins (u : MolecularSieve) (MW : List ℚ) :
    (u.design MW).ins = u.ins := by
  unfold MolecularSieve.design
  by_cases h : u.approx_duty <;> simp [h, MolecularSieve.addHeatUtility]

theorem design_outs (u : MolecularSieve) (MW : List ℚ) :
    (u.design MW).outs = u.outs := by
  unfold MolecularSieve.design
  by_cases h : u.approx_duty <;> simp [h, MolecularSieve.addHeatUtility]

theorem design_split (u : MolecularSieve) (MW : List ℚ) :
    (u.design MW).split = u.split := by
  unfold MolecularSieve.design
  by_cases h : u.approx_duty <;> simp [h, MolecularSieve.addHeatUtility]

theorem design_P (u : MolecularSieve) (MW : List ℚ) :
    (u.design MW).P = u.P := by
  unfold MolecularSieve.design
  by_cases h : u.approx_duty <;> simp [h, MolecularSieve.addHeatUtility]

theorem design_approx_duty (u : MolecularSieve) (MW : List ℚ) :
    (u.design MW).approx_duty = u.approx_duty := by
  unfold MolecularSieve.design
  by_cases h : u.approx_duty <;> simp [h, MolecularSieve.addHeatUtility]

theorem design_dr (u : MolecularSieve) (MW : List ℚ) :
    (u.design MW).design_results
      = MolecularSieve.setD u.design_results "Flow rate" (F_mass MW u.outs.2) := by
  unfold MolecularSieve.design
  by_cases h : u.approx_duty <;> simp [h, MolecularSieve.addHeatUtility]

theorem simulatePass_idem_aux (u : MolecularSieve) (MW : List ℚ)
    (hz : ¬ F_mol u.ins = 0) :
    (MolecularSieve.design { runResult u with heat_utilities := [] }
        MW).simulatePass MW
      = .ok (MolecularSieve.design { runResult u with heat_utilities := [] }
        MW) := by
  have hz2 : ¬ F_mol (MolecularSieve.design
      { runResult u with heat_utilities := [] } MW).ins = 0 := by
    rw [design_ins]
    simpa [runResult] using hz
  unfold MolecularSieve.simulatePass
  rw [run_ok _ hz2]
  by_cases h : u.approx_duty <;>
    simp [MolecularSieve.design, MolecularSieve.addHeatUtility, runResult,
      setD_setD, h]

/-- C8: re-simulation is idempotent — a second `run(); design()` pass with
unchanged inputs reproduces exactly the same unit state (DesignResults,
utility entries, and hence the purchase cost computed from them), with
results overwritten rather than accumulated. -/
theorem C8_resimulation_idempotent (u v : MolecularSieve) (MW : List ℚ)
    (h : u.simulatePass MW = .ok v) :
    v.simulatePass MW = .ok v := by
  unfold MolecularSieve.simulatePass at h
  by_cases hz : F_mol u.ins = 0
  · rw [run_zero u hz] at h
    simp at h
  · rw [run_ok u hz] at h
    simp only [Except.ok.injEq] at h
    rw [← h]
    exact simulatePass_idem_aux u MW hz

/-- The state one full `simulatePass` of `wUnit` produces, with molecular
weights 18 and 46. -/
def wSim : MolecularSieve :=
  { wUnit with
    outs := ({ mol := [2, 2], T := 300, P := 100 },
             { mol := [2, 0], T := 300, P := 100 }),
    design_results := [("Flow rate", 36)],
    heat_utilities := [(1429.65 * 36, 300), (-55.51 * 36, 300)] }

theorem C8_resimulation_idempotent_witness :
    wUnit.simulatePass [18, 46] = .ok wSim ∧
    wSim.simulatePass [18, 46] = .ok wSim := by
  have hw : wUnit.simulatePass [18, 46] = .ok wSim := by
    norm_num [MolecularSieve.simulatePass, MolecularSieve.run, splitterRun,
      MolecularSieve.design, MolecularSieve.addHeatUtility,
      MolecularSieve.setD, F_mass, F_mol, wUnit, wFeed, wOut,
      MolecularSieve.init, wSim]
  exact ⟨hw, C8_resimulation_idempotent wUnit wSim [18, 46] hw⟩
